import Mathlib

/-!
Shallow embedding of the curve-flattening engine of `svgpoly`
(`bezflatten.py` and the flattening part of `svg2poly.py`).

Modelling conventions:
* Python `complex` points become exact rational pairs `Pt = ℚ × ℚ`
  (`.1` is `.real`, `.2` is `.imag`); float literals `1e-30` and `0.01`
  become the exact rationals `10⁻³⁰` and `1/100`.
* `math.atan2` becomes `Complex.arg` over `ℝ` (both give the angle of the
  vector `(x, y)` in `(-π, π]`; exact rationals have no signed zero, so the
  two agree on every input the model can produce).
* The recursive flatteners keep the source's `level` argument; recursion is
  well-founded because each recursive call increases `level`, which is
  bounded by `CURVE_RECURSION_LIMIT`.
* `flatten_arc` has no recursion cap in the source, so it is modelled with
  an explicit fuel argument; `ArcResult.outOfFuel` marks a computation that
  still wants to recurse, and `ArcResult.zeroDiv` models Python raising
  `ZeroDivisionError` on division by a zero chord length `abs(p2 - p1)`.
  The stopping test `dist <= tol_dist` with `dist = num / abs(p2 - p1)`
  (where `num ≥ 0` and `abs(p2 - p1) > 0`) is encoded by the equivalent
  rational test `0 ≤ tol_dist ∧ num² ≤ tol_dist² · |p2 - p1|²`.
-/

/-- Points are exact rational pairs standing for Python complex numbers. -/
abbrev Pt : Type := ℚ × ℚ

/-- Source constant `CURVE_COLLINEARITY_EPSILON = 1e-30`. -/
def CURVE_COLLINEARITY_EPSILON : ℚ := 1 / 10 ^ 30

/-- Source constant `CURVE_ANGLE_TOLERANCE_EPSILON = 0.01`. -/
def CURVE_ANGLE_TOLERANCE_EPSILON : ℚ := 1 / 100

/-- Source constant `CURVE_RECURSION_LIMIT = 32`. -/
def CURVE_RECURSION_LIMIT : ℕ := 32

/-- Source `point_sq_distance(p1, p2)`: squared euclidean distance
`d.real**2 + d.imag**2` for `d = p1 - p2`. -/
def point_sq_distance (p1 p2 : Pt) : ℚ :=
  (p1.1 - p2.1) ^ 2 + (p1.2 - p2.2) ^ 2

/-- Complex midpoint `(p + q) / 2`, used for every de Casteljau midpoint. -/
def mid (p q : Pt) : Pt := ((p.1 + q.1) / 2, (p.2 + q.2) / 2)

/-- Squared modulus `d.real**2 + d.imag**2` of a point used as a vector. -/
def sqNorm (d : Pt) : ℚ := d.1 ^ 2 + d.2 ^ 2

/-- Absolute cross-product deviation
`abs((p.real - q.real) * d.imag - (p.imag - q.imag) * d.real)`,
the pattern computing `dist` in `flatten3` and `d2`, `d3` in `flatten4`. -/
def crossDev (p q d : Pt) : ℚ :=
  |(p.1 - q.1) * d.2 - (p.2 - q.2) * d.1|

/-- Outcome of a (fuel-instrumented) `flatten_arc` computation. -/
inductive ArcResult : Type where
  | ok (pts : List Pt)
  | zeroDiv
  | outOfFuel
deriving DecidableEq, Repr

/-- Source `flatten_arc(arc, tol_dist, t0, t1)` from `svg2poly.py`, with the
arc abstracted to its `point(t)` evaluator (spec §3: the Arc representation
is an external-collaborator concern exposing `point(t)`).  Python evaluates
the left recursive call before the right one, so an exception or divergence
on the left half hides the right half. -/
def flatten_arc (point : ℚ → Pt) (tol_dist : ℚ) (t0 t1 : ℚ) : ℕ → ArcResult
  | 0 => .outOfFuel
  | fuel + 1 =>
    let p1 := point t0
    let p2 := point t1
    let tmid := (t0 + t1) / 2
    let pmid := point tmid
    let pvec := p2 - p1
    let num := |pvec.2 * pmid.1 - pvec.1 * pmid.2 +
                p2.1 * p1.2 - p1.1 * p2.2|
    let chordSq := sqNorm (p2 - p1)
    if chordSq = 0 then .zeroDiv
    else if 0 ≤ tol_dist ∧ num ^ 2 ≤ tol_dist ^ 2 * chordSq then .ok [pmid]
    else
      match flatten_arc point tol_dist t0 tmid fuel with
      | .zeroDiv => .zeroDiv
      | .outOfFuel => .outOfFuel
      | .ok l =>
        match flatten_arc point tol_dist tmid t1 fuel with
        | .zeroDiv => .zeroDiv
        | .outOfFuel => .outOfFuel
        | .ok r => .ok (l ++ r)

/-- Model of Python `math.atan2(y, x)`: the angle of the vector `(x, y)`
in `(-π, π]`.  Exact rationals have no negative zero, so `Complex.arg`
agrees with `math.atan2` on every representable input. -/
noncomputable def atan2 (y x : ℚ) : ℝ :=
  Complex.arg ((x : ℝ) + (y : ℝ) * Complex.I)

open Classical in
/-- Normalized turning angle used by the angle/cusp conditions:
`da = abs(atan2(v) - atan2(w)); if da >= pi: da = 2*pi - da`. -/
noncomputable def turnAngle (v w : Pt) : ℝ :=
  let da := |atan2 v.2 v.1 - atan2 w.2 w.1|
  if Real.pi ≤ da then 2 * Real.pi - da else da

open Classical in
/-- Body of `flatten3` between the depth check and the final subdivision:
`some r` models an executed `return r`, `none` models falling through to
`# Continue subdivision`.  Python reuses the name `dist` for the chord
projection parameter and then for a squared distance; here those rebindings
are the fresh names `t` and `dsq`. -/
noncomputable def flatten3Stop (p1 p2 p3 : Pt) (tol_dist tol_angle : ℚ) :
    Option (List Pt) :=
  let tol_dist_sq := tol_dist * tol_dist
  let p12 := mid p1 p2
  let p23 := mid p2 p3
  let p123 := mid p12 p23
  let d := p3 - p1
  let dist := crossDev p2 p3 d
  if CURVE_COLLINEARITY_EPSILON < dist then
    -- Regular case
    if dist * dist ≤ tol_dist_sq * sqNorm d then
      if tol_angle < CURVE_ANGLE_TOLERANCE_EPSILON then some [p123]
      else if turnAngle (p3 - p2) (p2 - p1) < (tol_angle : ℝ) then some [p123]
      else none
    else none
  else
    -- Collinear case
    let da := sqNorm d
    let p2_1 := p2 - p1
    if da = 0 then
      if point_sq_distance p1 p2 < tol_dist_sq then some [p2] else none
    else
      let t := (p2_1.1 * d.1 + p2_1.2 * d.2) / da
      if 0 < t ∧ t < 1 then some []
      else
        let dsq :=
          if t ≤ 0 then point_sq_distance p2 p1
          else if 1 ≤ t then point_sq_distance p2 p3
          else point_sq_distance p2 (p1 + t • d)
        if dsq < tol_dist_sq then some [p2] else none

open Classical in
/-- Recursion core of `flatten3`, structurally recursive on the remaining
depth budget `fuel = CURVE_RECURSION_LIMIT + 1 - level`; `fuel = 0` is
exactly the source's `level > CURVE_RECURSION_LIMIT` early return.  The
lemmas `flatten3_of_depth`, `flatten3_of_stop` and `flatten3_of_none` below
show that the wrapper `flatten3` satisfies the source's recurrence
verbatim. -/
noncomputable def flatten3Go (tol_dist tol_angle : ℚ) :
    ℕ → Pt → Pt → Pt → List Pt
  | 0, _, _, _ => []
  | fuel + 1, p1, p2, p3 =>
    match flatten3Stop p1 p2 p3 tol_dist tol_angle with
    | some r => r
    | none =>
      let p12 := mid p1 p2
      let p23 := mid p2 p3
      let p123 := mid p12 p23
      flatten3Go tol_dist tol_angle fuel p1 p12 p123 ++
      flatten3Go tol_dist tol_angle fuel p123 p23 p3

/-- Source `flatten3(p1, p2, p3, tol_dist, tol_angle, level)`:
the adaptive quadratic Bézier flattener of `bezflatten.py`. -/
noncomputable def flatten3 (p1 p2 p3 : Pt) (tol_dist tol_angle : ℚ)
    (level : ℕ) : List Pt :=
  flatten3Go tol_dist tol_angle (CURVE_RECURSION_LIMIT + 1 - level) p1 p2 p3

open Classical in
/-- Body of `flatten4` between the depth check and the final subdivision,
with the same `some`/`none` reading as `flatten3Stop`.  The Python
reassignments of `d2`/`d3` to projection parameters and then to squared
distances are the fresh names `u2`/`u3` and `e2`/`e3`. -/
noncomputable def flatten4Stop (p1 p2 p3 p4 : Pt) (tol_dist tol_angle : ℚ) :
    Option (List Pt) :=
  let tol_dist_sq := tol_dist * tol_dist
  let p23 := mid p2 p3
  let d := p4 - p1
  let d2 := crossDev p2 p4 d
  let d3 := crossDev p3 p4 d
  let c := (if CURVE_COLLINEARITY_EPSILON < d2 then 2 else 0) +
           (if CURVE_COLLINEARITY_EPSILON < d3 then 1 else 0)
  if c = 0 then
    -- All collinear OR p1 == p4
    let k := sqNorm d
    if k = 0 then
      let e2 := point_sq_distance p1 p2
      let e3 := point_sq_distance p4 p3
      if e2 > e3 then (if e2 < tol_dist_sq then some [p2] else none)
      else if e3 < tol_dist_sq then some [p3] else none
    else
      let u2 := 1 / k * ((p2.1 - p1.1) * d.1 + (p2.2 - p1.2) * d.2)
      let u3 := 1 / k * ((p3.1 - p1.1) * d.1 + (p3.2 - p1.2) * d.2)
      if (0 < u2 ∧ u2 < 1) ∧ (0 < u3 ∧ u3 < 1) then some []
      else
        let e2 :=
          if u2 ≤ 0 then point_sq_distance p2 p1
          else if 1 ≤ u2 then point_sq_distance p2 p4
          else point_sq_distance p2 (p1 + u2 • d)
        let e3 :=
          if u3 ≤ 0 then point_sq_distance p3 p1
          else if 1 ≤ u3 then point_sq_distance p3 p4
          else point_sq_distance p3 (p1 + u3 • d)
        if e2 > e3 then (if e2 < tol_dist_sq then some [p2] else none)
        else if e3 < tol_dist_sq then some [p3] else none
  else if c = 1 then
    -- p1, p2, p4 are collinear, p3 is significant
    if d3 * d3 ≤ tol_dist_sq * sqNorm d then
      if tol_angle < CURVE_ANGLE_TOLERANCE_EPSILON then some [p23]
      else if turnAngle (p4 - p3) (p3 - p2) < (tol_angle : ℝ) then
        some [p2, p3]
      else none
    else none
  else if c = 2 then
    -- p1, p3, p4 are collinear, p2 is significant
    if d2 * d2 ≤ tol_dist_sq * sqNorm d then
      if tol_angle < CURVE_ANGLE_TOLERANCE_EPSILON then some [p23]
      else if turnAngle (p3 - p2) (p2 - p1) < (tol_angle : ℝ) then
        some [p2, p3]
      else none
    else none
  else if c = 3 then
    -- Regular case
    if (d2 + d3) * (d2 + d3) ≤ tol_dist_sq * sqNorm d then
      if tol_angle < CURVE_ANGLE_TOLERANCE_EPSILON then some [p23]
      else if turnAngle (p3 - p2) (p2 - p1) + turnAngle (p4 - p3) (p3 - p2) <
          (tol_angle : ℝ) then some [p23]
      else none
    else none
  else none

open Classical in
/-- Recursion core of `flatten4`, with the same fuel convention as
`flatten3Go`. -/
noncomputable def flatten4Go (tol_dist tol_angle : ℚ) :
    ℕ → Pt → Pt → Pt → Pt → List Pt
  | 0, _, _, _, _ => []
  | fuel + 1, p1, p2, p3, p4 =>
    match flatten4Stop p1 p2 p3 p4 tol_dist tol_angle with
    | some r => r
    | none =>
      let p12 := mid p1 p2
      let p23 := mid p2 p3
      let p34 := mid p3 p4
      let p123 := mid p12 p23
      let p234 := mid p23 p34
      let p1234 := mid p123 p234
      flatten4Go tol_dist tol_angle fuel p1 p12 p123 p1234 ++
      flatten4Go tol_dist tol_angle fuel p1234 p234 p34 p4

/-- Source `flatten4(p1, p2, p3, p4, tol_dist, tol_angle, level)`:
the adaptive cubic Bézier flattener of `bezflatten.py`. -/
noncomputable def flatten4 (p1 p2 p3 p4 : Pt) (tol_dist tol_angle : ℚ)
    (level : ℕ) : List Pt :=
  flatten4Go tol_dist tol_angle (CURVE_RECURSION_LIMIT + 1 - level) p1 p2 p3 p4

open Classical in
/-- Fuel core counting `flatten4` invocations (the call itself included). -/
noncomputable def flatten4CallsGo (tol_dist tol_angle : ℚ) :
    ℕ → Pt → Pt → Pt → Pt → ℕ
  | 0, _, _, _, _ => 1
  | fuel + 1, p1, p2, p3, p4 =>
    match flatten4Stop p1 p2 p3 p4 tol_dist tol_angle with
    | some _ => 1
    | none =>
      let p12 := mid p1 p2
      let p23 := mid p2 p3
      let p34 := mid p3 p4
      let p123 := mid p12 p23
      let p234 := mid p23 p34
      let p1234 := mid p123 p234
      1 + flatten4CallsGo tol_dist tol_angle fuel p1 p12 p123 p1234 +
      flatten4CallsGo tol_dist tol_angle fuel p1234 p234 p34 p4

/-- Number of `flatten4` invocations (the initial call included) performed
while flattening a cubic: instrumentation of the same recursion tree. -/
noncomputable def flatten4Calls (p1 p2 p3 p4 : Pt) (tol_dist tol_angle : ℚ)
    (level : ℕ) : ℕ :=
  flatten4CallsGo tol_dist tol_angle (CURVE_RECURSION_LIMIT + 1 - level)
    p1 p2 p3 p4

/-! ## The source recurrences, recovered as unfolding lemmas -/

theorem flatten3_of_depth (p1 p2 p3 : Pt) (tol_dist tol_angle : ℚ)
    (level : ℕ) (h : CURVE_RECURSION_LIMIT < level) :
    flatten3 p1 p2 p3 tol_dist tol_angle level = [] := by
  have h0 : CURVE_RECURSION_LIMIT + 1 - level = 0 := by omega
  rw [flatten3, h0, flatten3Go]

theorem flatten3_of_stop (p1 p2 p3 : Pt) (tol_dist tol_angle : ℚ)
    (level : ℕ) (h : ¬ CURVE_RECURSION_LIMIT < level) (r : List Pt)
    (hs : flatten3Stop p1 p2 p3 tol_dist tol_angle = some r) :
    flatten3 p1 p2 p3 tol_dist tol_angle level = r := by
  have h1 : CURVE_RECURSION_LIMIT + 1 - level =
      (CURVE_RECURSION_LIMIT - level) + 1 := by omega
  rw [flatten3, h1, flatten3Go, hs]

theorem flatten3_of_none (p1 p2 p3 : Pt) (tol_dist tol_angle : ℚ)
    (level : ℕ) (h : ¬ CURVE_RECURSION_LIMIT < level)
    (hs : flatten3Stop p1 p2 p3 tol_dist tol_angle = none) :
    flatten3 p1 p2 p3 tol_dist tol_angle level =
      flatten3 p1 (mid p1 p2) (mid (mid p1 p2) (mid p2 p3))
        tol_dist tol_angle (level + 1) ++
      flatten3 (mid (mid p1 p2) (mid p2 p3)) (mid p2 p3) p3
        tol_dist tol_angle (level + 1) := by
  have h1 : CURVE_RECURSION_LIMIT + 1 - level =
      (CURVE_RECURSION_LIMIT - level) + 1 := by omega
  have h2 : CURVE_RECURSION_LIMIT + 1 - (level + 1) =
      CURVE_RECURSION_LIMIT - level := by omega
  rw [flatten3, flatten3, flatten3, h1, h2, flatten3Go, hs]

theorem flatten4_of_depth (p1 p2 p3 p4 : Pt) (tol_dist tol_angle : ℚ)
    (level : ℕ) (h : CURVE_RECURSION_LIMIT < level) :
    flatten4 p1 p2 p3 p4 tol_dist tol_angle level = [] := by
  have h0 : CURVE_RECURSION_LIMIT + 1 - level = 0 := by omega
  rw [flatten4, h0, flatten4Go]

theorem flatten4_of_stop (p1 p2 p3 p4 : Pt) (tol_dist tol_angle : ℚ)
    (level : ℕ) (h : ¬ CURVE_RECURSION_LIMIT < level) (r : List Pt)
    (hs : flatten4Stop p1 p2 p3 p4 tol_dist tol_angle = some r) :
    flatten4 p1 p2 p3 p4 tol_dist tol_angle level = r := by
  have h1 : CURVE_RECURSION_LIMIT + 1 - level =
      (CURVE_RECURSION_LIMIT - level) + 1 := by omega
  rw [flatten4, h1, flatten4Go, hs]

theorem flatten4_of_none (p1 p2 p3 p4 : Pt) (tol_dist tol_angle : ℚ)
    (level : ℕ) (h : ¬ CURVE_RECURSION_LIMIT < level)
    (hs : flatten4Stop p1 p2 p3 p4 tol_dist tol_angle = none) :
    flatten4 p1 p2 p3 p4 tol_dist tol_angle level =
      flatten4 p1 (mid p1 p2) (mid (mid p1 p2) (mid p2 p3))
        (mid (mid (mid p1 p2) (mid p2 p3)) (mid (mid p2 p3) (mid p3 p4)))
        tol_dist tol_angle (level + 1) ++
      flatten4 (mid (mid (mid p1 p2) (mid p2 p3)) (mid (mid p2 p3) (mid p3 p4)))
        (mid (mid p2 p3) (mid p3 p4)) (mid p3 p4) p4
        tol_dist tol_angle (level + 1) := by
  have h1 : CURVE_RECURSION_LIMIT + 1 - level =
      (CURVE_RECURSION_LIMIT - level) + 1 := by omega
  have h2 : CURVE_RECURSION_LIMIT + 1 - (level + 1) =
      CURVE_RECURSION_LIMIT - level := by omega
  rw [flatten4, flatten4, flatten4, h1, h2, flatten4Go, hs]

theorem flatten4Calls_of_stop (p1 p2 p3 p4 : Pt) (tol_dist tol_angle : ℚ)
    (level : ℕ) (h : ¬ CURVE_RECURSION_LIMIT < level) (r : List Pt)
    (hs : flatten4Stop p1 p2 p3 p4 tol_dist tol_angle = some r) :
    flatten4Calls p1 p2 p3 p4 tol_dist tol_angle level = 1 := by
  have h1 : CURVE_RECURSION_LIMIT + 1 - level =
      (CURVE_RECURSION_LIMIT - level) + 1 := by omega
  rw [flatten4Calls, h1, flatten4CallsGo, hs]

/-- Typed curve segment fed to the dispatch layer (spec §3).  The four
supported `svgpathtools` kinds carry the fields the dispatch reads; `arc`
additionally carries its `point(t)` evaluator (an external-collaborator
concern).  `other` stands for any object of a different class reaching the
`isinstance` chain. -/
inductive Segment : Type where
  | line (start stop : Pt)
  | quadraticBezier (start control stop : Pt)
  | cubicBezier (start control1 control2 stop : Pt)
  | arc (point : ℚ → Pt) (start stop : Pt)
  | other

/-- Outcome of `segment2polyline`: a returned polyline, the `ValueError`
raised on an unrecognized segment, or an outcome propagated from the arc
flattener (`ZeroDivisionError`, or exhaustion of the modelling fuel). -/
inductive SegResult : Type where
  | ok (pts : List Pt)
  | valueError
  | zeroDivisionError
  | outOfFuel
deriving DecidableEq, Repr

open Classical in
/-- Source `segment2polyline(segment, tol_dist, tol_angle)` from
`svg2poly.py`.  The `fuel` argument only feeds the (uncapped, possibly
nonterminating) arc flattener. -/
noncomputable def segment2polyline (segment : Segment)
    (tol_dist tol_angle : ℚ) (fuel : ℕ) : SegResult :=
  match segment with
  | .line s e => .ok [s, e]
  | .quadraticBezier s c e =>
    .ok ([s] ++ flatten3 s c e tol_dist tol_angle 0 ++ [e])
  | .cubicBezier s c1 c2 e =>
    .ok ([s] ++ flatten4 s c1 c2 e tol_dist tol_angle 0 ++ [e])
  | .arc point s e =>
    match flatten_arc point tol_dist 0 1 fuel with
    | .ok interior => .ok ([s] ++ interior ++ [e])
    | .zeroDiv => .zeroDivisionError
    | .outOfFuel => .outOfFuel
  | .other => .valueError

/-! ## Helper evaluations and algebra lemmas (shared, not claim-bound) -/

lemma flatten4Stop_deg5 :
    flatten4Stop ((5:ℚ),5) ((5:ℚ),5) ((5:ℚ),5) ((5:ℚ),5) 1 0 =
      some [((5:ℚ),5)] := by
  norm_num [flatten4Stop, crossDev, sqNorm, point_sq_distance, mid,
    CURVE_COLLINEARITY_EPSILON, CURVE_ANGLE_TOLERANCE_EPSILON, Prod.mk_sub_mk]

lemma flatten4_deg5 :
    flatten4 ((5:ℚ),5) ((5:ℚ),5) ((5:ℚ),5) ((5:ℚ),5) 1 0 0 = [((5:ℚ),5)] :=
  flatten4_of_stop _ _ _ _ _ _ _ (by norm_num [CURVE_RECURSION_LIMIT]) _
    flatten4Stop_deg5

lemma segment2polyline_deg5 :
    segment2polyline
      (Segment.cubicBezier ((5:ℚ),5) ((5:ℚ),5) ((5:ℚ),5) ((5:ℚ),5)) 1 0 0 =
      SegResult.ok [((5:ℚ),5), ((5:ℚ),5), ((5:ℚ),5)] := by
  simp [segment2polyline, flatten4_deg5]

/-! ## Claim theorems -/

/-- C8: `flatten3` and `flatten4` terminate on every input (they are total
functions of this embedding), and any call whose `level` argument exceeds
the fixed recursion limit of 32 immediately returns the empty list, so
recursion-limit exhaustion is silent truncation, never an error. -/
theorem flatten_depth_exceeded (p1 p2 p3 p4 : Pt) (tol_dist tol_angle : ℚ)
    (level : ℕ) (h : CURVE_RECURSION_LIMIT < level) :
    flatten3 p1 p2 p3 tol_dist tol_angle level = [] ∧
    flatten4 p1 p2 p3 p4 tol_dist tol_angle level = [] :=
  ⟨flatten3_of_depth p1 p2 p3 tol_dist tol_angle level h,
   flatten4_of_depth p1 p2 p3 p4 tol_dist tol_angle level h⟩

/-- C8 witness: a call at level 33 returns the empty list. -/
theorem flatten_depth_exceeded_witness :
    flatten3 ((0:ℚ),0) ((1:ℚ),0) ((2:ℚ),0) 1 0 33 = [] ∧
    flatten4 ((0:ℚ),0) ((1:ℚ),0) ((2:ℚ),0) ((3:ℚ),0) 1 0 33 = [] :=
  flatten_depth_exceeded ((0:ℚ),0) ((1:ℚ),0) ((2:ℚ),0) ((3:ℚ),0) 1 0 33
    (by norm_num [CURVE_RECURSION_LIMIT])

/-- C10: `flatten_arc` divides by the chord length `abs(point(t1) -
point(t0))` with no guard, so whenever the two evaluated endpoints
coincide it raises `ZeroDivisionError` at once, before performing any
recursion (the result is `zeroDiv` already at one unit of fuel). -/
theorem flatten_arc_coincident_zeroDiv (point : ℚ → Pt)
    (tol_dist t0 t1 : ℚ) (fuel : ℕ) (h : point t0 = point t1) :
    flatten_arc point tol_dist t0 t1 (fuel + 1) = .zeroDiv := by
  simp only [flatten_arc, h, sub_self, sqNorm]
  norm_num

/-- C10 witness: a constant evaluator raises at the very first call. -/
theorem flatten_arc_coincident_zeroDiv_witness :
    flatten_arc (fun _ => ((5:ℚ),5)) 1 0 1 1 = .zeroDiv :=
  flatten_arc_coincident_zeroDiv (fun _ => ((5:ℚ),5)) 1 0 1 0 rfl

/-- C3 counterexample: on the zero-radius (constant-evaluator) arc the
first call already resolves to `ZeroDivisionError` with a single unit of
fuel — the computation never bisects, so it does not recurse unboundedly
as claimed (an unbounded recursion would be `outOfFuel` at every fuel). -/
theorem flatten_arc_const_raises_not_loops :
    flatten_arc (fun _ => ((7:ℚ),3)) 1 0 1 1 = .zeroDiv ∧
    ArcResult.zeroDiv ≠ ArcResult.outOfFuel := by
  constructor
  · norm_num [flatten_arc, sqNorm, Prod.mk_sub_mk]
  · simp

/-- C3 (amended): a zero-radius arc, i.e. a constant `point(t)` evaluator,
does not drive `flatten_arc` into unbounded bisection recursion: every
actually-executing call (any positive fuel) stops immediately with
`ZeroDivisionError`, because the chord length it divides by is zero. -/
theorem flatten_arc_const_zeroDiv (c : Pt) (tol_dist t0 t1 : ℚ) (fuel : ℕ) :
    flatten_arc (fun _ => c) tol_dist t0 t1 (fuel + 1) = .zeroDiv := by
  simp only [flatten_arc, sub_self, sqNorm]
  norm_num

/-- C1 counterexample: for the degenerate cubic with all four control
points `(5,5)` and the dispatch defaults `tol_dist = 1`, `tol_angle = 0`,
the assembled polyline is not the claimed two-point `[(5,5),(5,5)]`. -/
theorem segment2polyline_deg_cubic_ne_two_points :
    segment2polyline
      (Segment.cubicBezier ((5:ℚ),5) ((5:ℚ),5) ((5:ℚ),5) ((5:ℚ),5)) 1 0 0 ≠
      SegResult.ok [((5:ℚ),5), ((5:ℚ),5)] := by
  rw [segment2polyline_deg5]
  simp

/-- C1 (amended): flattening the all-coincident cubic terminates after a
single `flatten4` call (well within the recursion cap's bound), but the
degenerate curve stops through the case-0 branch returning `[p3]`, so the
assembled polyline is `[(5,5),(5,5),(5,5)]` — endpoints plus one interior
point equal to them — rather than the endpoints alone. -/
theorem segment2polyline_deg_cubic_eval :
    segment2polyline
      (Segment.cubicBezier ((5:ℚ),5) ((5:ℚ),5) ((5:ℚ),5) ((5:ℚ),5)) 1 0 0 =
      SegResult.ok [((5:ℚ),5), ((5:ℚ),5), ((5:ℚ),5)] ∧
    flatten4Calls ((5:ℚ),5) ((5:ℚ),5) ((5:ℚ),5) ((5:ℚ),5) 1 0 0 = 1 :=
  ⟨segment2polyline_deg5,
   flatten4Calls_of_stop _ _ _ _ _ _ _ (by norm_num [CURVE_RECURSION_LIMIT]) _
     flatten4Stop_deg5⟩

lemma flatten3Stop_col0 :
    flatten3Stop ((0:ℚ),0) ((0:ℚ),0) ((2:ℚ),0) 1 0 = some [((0:ℚ),0)] := by
  norm_num [flatten3Stop, crossDev, sqNorm, point_sq_distance, mid,
    CURVE_COLLINEARITY_EPSILON, CURVE_ANGLE_TOLERANCE_EPSILON, Prod.mk_sub_mk]

/-- C2 counterexample: the interior sequence can contain the curve's own
start point by value — `flatten3` on the degenerate quadratic with
`p1 = p2 = (0,0)`, `p3 = (2,0)` returns `[(0,0)]`, which is the start
point itself. -/
theorem flatten3_interior_contains_start :
    flatten3 ((0:ℚ),0) ((0:ℚ),0) ((2:ℚ),0) 1 0 0 = [((0:ℚ),0)] ∧
    ((0:ℚ),(0:ℚ)) ∈ flatten3 ((0:ℚ),0) ((0:ℚ),0) ((2:ℚ),0) 1 0 0 := by
  have h := flatten3_of_stop ((0:ℚ),0) ((0:ℚ),0) ((2:ℚ),0) 1 0 0
    (by norm_num [CURVE_RECURSION_LIMIT]) _ flatten3Stop_col0
  exact ⟨h, by rw [h]; simp⟩

lemma flatten3Stop_regular (p1 p2 p3 : Pt) (tol_dist tol_angle : ℚ)
    (hreg : CURVE_COLLINEARITY_EPSILON < crossDev p2 p3 (p3 - p1))
    (hdist : crossDev p2 p3 (p3 - p1) * crossDev p2 p3 (p3 - p1) ≤
      tol_dist * tol_dist * sqNorm (p3 - p1))
    (hang : tol_angle < CURVE_ANGLE_TOLERANCE_EPSILON ∨
      turnAngle (p3 - p2) (p2 - p1) < (tol_angle : ℝ)) :
    flatten3Stop p1 p2 p3 tol_dist tol_angle =
      some [mid (mid p1 p2) (mid p2 p3)] := by
  simp only [flatten3Stop]
  rw [if_pos hreg, if_pos hdist]
  by_cases hA : tol_angle < CURVE_ANGLE_TOLERANCE_EPSILON
  · rw [if_pos hA]
  · rw [if_neg hA, if_pos (hang.resolve_left hA)]

lemma cross_zero_of_mid_eq_fst (a1 a2 b1 b2 c1 c2 : ℚ)
    (h1 : a1 = ((a1 + b1) / 2 + (b1 + c1) / 2) / 2)
    (h2 : a2 = ((a2 + b2) / 2 + (b2 + c2) / 2) / 2) :
    (b1 - c1) * (c2 - a2) - (b2 - c2) * (c1 - a1) = 0 := by
  have hc1 : c1 = 3 * a1 - 2 * b1 := by linarith
  have hc2 : c2 = 3 * a2 - 2 * b2 := by linarith
  subst hc1 hc2
  ring

lemma cross_zero_of_mid_eq_lst (a1 a2 b1 b2 c1 c2 : ℚ)
    (h1 : c1 = ((a1 + b1) / 2 + (b1 + c1) / 2) / 2)
    (h2 : c2 = ((a2 + b2) / 2 + (b2 + c2) / 2) / 2) :
    (b1 - c1) * (c2 - a2) - (b2 - c2) * (c1 - a1) = 0 := by
  have ha1 : a1 = 3 * c1 - 2 * b1 := by linarith
  have ha2 : a2 = 3 * c2 - 2 * b2 := by linarith
  subst ha1 ha2
  ring

/-- C2 (amended): the flatteners add no structural endpoints (dispatch
does), and on the regular, genuinely curved stopping path the returned
midpoint really differs from both endpoints: whenever `flatten3` stops
through its regular case, neither `p1` nor `p3` occurs in the returned
interior sequence.  By value, however, the invariant fails on degenerate
collinear input (see the counterexample). -/
theorem flatten3_regular_interior_ne_endpoints (p1 p2 p3 : Pt)
    (tol_dist tol_angle : ℚ) (level : ℕ)
    (hlev : level ≤ CURVE_RECURSION_LIMIT)
    (hreg : CURVE_COLLINEARITY_EPSILON < crossDev p2 p3 (p3 - p1))
    (hdist : crossDev p2 p3 (p3 - p1) * crossDev p2 p3 (p3 - p1) ≤
      tol_dist * tol_dist * sqNorm (p3 - p1))
    (hang : tol_angle < CURVE_ANGLE_TOLERANCE_EPSILON ∨
      turnAngle (p3 - p2) (p2 - p1) < (tol_angle : ℝ)) :
    p1 ∉ flatten3 p1 p2 p3 tol_dist tol_angle level ∧
    p3 ∉ flatten3 p1 p2 p3 tol_dist tol_angle level := by
  have hr := flatten3_of_stop p1 p2 p3 tol_dist tol_angle level
    (by omega) _ (flatten3Stop_regular p1 p2 p3 tol_dist tol_angle hreg hdist hang)
  rw [hr]
  have heps : (0:ℚ) < CURVE_COLLINEARITY_EPSILON := by
    norm_num [CURVE_COLLINEARITY_EPSILON]
  constructor
  · simp only [List.mem_singleton]
    intro hEq
    rw [Prod.ext_iff] at hEq
    simp only [mid] at hEq
    obtain ⟨h1, h2⟩ := hEq
    have hz : (p2.1 - p3.1) * (p3.2 - p1.2) - (p2.2 - p3.2) * (p3.1 - p1.1)
        = 0 := cross_zero_of_mid_eq_fst p1.1 p1.2 p2.1 p2.2 p3.1 p3.2 h1 h2
    rw [crossDev] at hreg
    simp only [Prod.fst_sub, Prod.snd_sub] at hreg
    rw [hz] at hreg
    simp at hreg
    linarith
  · simp only [List.mem_singleton]
    intro hEq
    rw [Prod.ext_iff] at hEq
    simp only [mid] at hEq
    obtain ⟨h1, h2⟩ := hEq
    have hz : (p2.1 - p3.1) * (p3.2 - p1.2) - (p2.2 - p3.2) * (p3.1 - p1.1)
        = 0 := cross_zero_of_mid_eq_lst p1.1 p1.2 p2.1 p2.2 p3.1 p3.2 h1 h2
    rw [crossDev] at hreg
    simp only [Prod.fst_sub, Prod.snd_sub] at hreg
    rw [hz] at hreg
    simp at hreg
    linarith

/-- C2 witness: a regular curved quadratic whose interior output avoids
both endpoints. -/
theorem flatten3_regular_interior_ne_endpoints_witness :
    ((0:ℚ),(0:ℚ)) ∉ flatten3 ((0:ℚ),0) ((1:ℚ),2) ((2:ℚ),0) 2 0 0 ∧
    ((2:ℚ),(0:ℚ)) ∉ flatten3 ((0:ℚ),0) ((1:ℚ),2) ((2:ℚ),0) 2 0 0 :=
  flatten3_regular_interior_ne_endpoints ((0:ℚ),0) ((1:ℚ),2) ((2:ℚ),0) 2 0 0
    (by norm_num [CURVE_RECURSION_LIMIT])
    (by norm_num [crossDev, CURVE_COLLINEARITY_EPSILON, Prod.mk_sub_mk])
    (by norm_num [crossDev, sqNorm, Prod.mk_sub_mk])
    (Or.inl (by norm_num [CURVE_ANGLE_TOLERANCE_EPSILON]))

/-- C6: in `flatten3`'s regular case — deviation above the collinearity
epsilon, squared deviation within `tol_dist² · |d|²`, and the angle test
disabled (`tol_angle < CURVE_ANGLE_TOLERANCE_EPSILON`) or the normalized
turning angle below `tol_angle` — the call returns exactly the single
de Casteljau midpoint `p123 = ((p1+p2)/2 + (p2+p3)/2)/2`. -/
theorem flatten3_regular_spec (p1 p2 p3 : Pt) (tol_dist tol_angle : ℚ)
    (level : ℕ) (hlev : level ≤ CURVE_RECURSION_LIMIT)
    (hreg : CURVE_COLLINEARITY_EPSILON < crossDev p2 p3 (p3 - p1))
    (hdist : crossDev p2 p3 (p3 - p1) * crossDev p2 p3 (p3 - p1) ≤
      tol_dist * tol_dist * sqNorm (p3 - p1))
    (hang : tol_angle < CURVE_ANGLE_TOLERANCE_EPSILON ∨
      turnAngle (p3 - p2) (p2 - p1) < (tol_angle : ℝ)) :
    flatten3 p1 p2 p3 tol_dist tol_angle level =
      [mid (mid p1 p2) (mid p2 p3)] :=
  flatten3_of_stop p1 p2 p3 tol_dist tol_angle level (by omega) _
    (flatten3Stop_regular p1 p2 p3 tol_dist tol_angle hreg hdist hang)

/-- C6 witness: a concrete regular stop returning the single midpoint. -/
theorem flatten3_regular_spec_witness :
    flatten3 ((0:ℚ),0) ((1:ℚ),1) ((2:ℚ),0) 1 0 0 = [((1:ℚ), 1/2)] := by
  have h := flatten3_regular_spec ((0:ℚ),0) ((1:ℚ),1) ((2:ℚ),0) 1 0 0
    (by norm_num [CURVE_RECURSION_LIMIT])
    (by norm_num [crossDev, CURVE_COLLINEARITY_EPSILON, Prod.mk_sub_mk])
    (by norm_num [crossDev, sqNorm, Prod.mk_sub_mk])
    (Or.inl (by norm_num [CURVE_ANGLE_TOLERANCE_EPSILON]))
  rw [h]
  norm_num [mid]

lemma flatten3Stop_simple_collinear (p1 p2 p3 : Pt) (tol_dist tol_angle : ℚ)
    (hcol : crossDev p2 p3 (p3 - p1) ≤ CURVE_COLLINEARITY_EPSILON)
    (hda : sqNorm (p3 - p1) ≠ 0)
    (ht : 0 < ((p2 - p1).1 * (p3 - p1).1 + (p2 - p1).2 * (p3 - p1).2) /
            sqNorm (p3 - p1) ∧
          ((p2 - p1).1 * (p3 - p1).1 + (p2 - p1).2 * (p3 - p1).2) /
            sqNorm (p3 - p1) < 1) :
    flatten3Stop p1 p2 p3 tol_dist tol_angle = some [] := by
  simp only [flatten3Stop]
  rw [if_neg (not_lt.mpr hcol), if_neg hda, if_pos ht]

lemma flatten4Stop_simple_collinear (p1 p2 p3 p4 : Pt)
    (tol_dist tol_angle : ℚ)
    (h2 : crossDev p2 p4 (p4 - p1) ≤ CURVE_COLLINEARITY_EPSILON)
    (h3 : crossDev p3 p4 (p4 - p1) ≤ CURVE_COLLINEARITY_EPSILON)
    (hk : sqNorm (p4 - p1) ≠ 0)
    (hu : (0 < 1 / sqNorm (p4 - p1) *
             ((p2.1 - p1.1) * (p4 - p1).1 + (p2.2 - p1.2) * (p4 - p1).2) ∧
           1 / sqNorm (p4 - p1) *
             ((p2.1 - p1.1) * (p4 - p1).1 + (p2.2 - p1.2) * (p4 - p1).2) < 1) ∧
          (0 < 1 / sqNorm (p4 - p1) *
             ((p3.1 - p1.1) * (p4 - p1).1 + (p3.2 - p1.2) * (p4 - p1).2) ∧
           1 / sqNorm (p4 - p1) *
             ((p3.1 - p1.1) * (p4 - p1).1 + (p3.2 - p1.2) * (p4 - p1).2) < 1)) :
    flatten4Stop p1 p2 p3 p4 tol_dist tol_angle = some [] := by
  simp only [flatten4Stop]
  rw [if_neg (not_lt.mpr h2), if_neg (not_lt.mpr h3),
    if_pos (show (0:ℕ) + 0 = 0 by norm_num), if_neg hk, if_pos hu]

/-- C7: flattening exactly collinear control points whose interior control
points project strictly inside the chord yields an empty interior
sequence, both for `flatten3` (projection of `p2` strictly in `(0,1)`) and
for `flatten4` (both projections strictly in `(0,1)`), at every recursion
level. -/
theorem flatten_collinear_empty (p1 p2 p3 q1 q2 q3 q4 : Pt)
    (tol_dist tol_angle tol_dist' tol_angle' : ℚ) (level level' : ℕ)
    (hcol : crossDev p2 p3 (p3 - p1) ≤ CURVE_COLLINEARITY_EPSILON)
    (hda : sqNorm (p3 - p1) ≠ 0)
    (ht : 0 < ((p2 - p1).1 * (p3 - p1).1 + (p2 - p1).2 * (p3 - p1).2) /
            sqNorm (p3 - p1) ∧
          ((p2 - p1).1 * (p3 - p1).1 + (p2 - p1).2 * (p3 - p1).2) /
            sqNorm (p3 - p1) < 1)
    (h2 : crossDev q2 q4 (q4 - q1) ≤ CURVE_COLLINEARITY_EPSILON)
    (h3 : crossDev q3 q4 (q4 - q1) ≤ CURVE_COLLINEARITY_EPSILON)
    (hk : sqNorm (q4 - q1) ≠ 0)
    (hu : (0 < 1 / sqNorm (q4 - q1) *
             ((q2.1 - q1.1) * (q4 - q1).1 + (q2.2 - q1.2) * (q4 - q1).2) ∧
           1 / sqNorm (q4 - q1) *
             ((q2.1 - q1.1) * (q4 - q1).1 + (q2.2 - q1.2) * (q4 - q1).2) < 1) ∧
          (0 < 1 / sqNorm (q4 - q1) *
             ((q3.1 - q1.1) * (q4 - q1).1 + (q3.2 - q1.2) * (q4 - q1).2) ∧
           1 / sqNorm (q4 - q1) *
             ((q3.1 - q1.1) * (q4 - q1).1 + (q3.2 - q1.2) * (q4 - q1).2) < 1)) :
    flatten3 p1 p2 p3 tol_dist tol_angle level = [] ∧
    flatten4 q1 q2 q3 q4 tol_dist' tol_angle' level' = [] := by
  constructor
  · by_cases hlev : CURVE_RECURSION_LIMIT < level
    · exact flatten3_of_depth p1 p2 p3 tol_dist tol_angle level hlev
    · exact flatten3_of_stop p1 p2 p3 tol_dist tol_angle level hlev _
        (flatten3Stop_simple_collinear p1 p2 p3 tol_dist tol_angle hcol hda ht)
  · by_cases hlev : CURVE_RECURSION_LIMIT < level'
    · exact flatten4_of_depth q1 q2 q3 q4 tol_dist' tol_angle' level' hlev
    · exact flatten4_of_stop q1 q2 q3 q4 tol_dist' tol_angle' level' hlev _
        (flatten4Stop_simple_collinear q1 q2 q3 q4 tol_dist' tol_angle'
          h2 h3 hk hu)

/-- C7 witness: the spec's own example `p1=(0,0), p2=(1,0), p3=(2,0)` and
the collinear cubic `(0,0),(1,0),(2,0),(3,0)` both flatten to `[]`. -/
theorem flatten_collinear_empty_witness :
    flatten3 ((0:ℚ),0) ((1:ℚ),0) ((2:ℚ),0) 1 0 0 = [] ∧
    flatten4 ((0:ℚ),0) ((1:ℚ),0) ((2:ℚ),0) ((3:ℚ),0) 1 0 0 = [] :=
  flatten_collinear_empty ((0:ℚ),0) ((1:ℚ),0) ((2:ℚ),0)
    ((0:ℚ),0) ((1:ℚ),0) ((2:ℚ),0) ((3:ℚ),0) 1 0 1 0 0 0
    (by norm_num [crossDev, CURVE_COLLINEARITY_EPSILON, Prod.mk_sub_mk])
    (by norm_num [sqNorm, Prod.mk_sub_mk])
    (by norm_num [sqNorm, Prod.mk_sub_mk])
    (by norm_num [crossDev, CURVE_COLLINEARITY_EPSILON, Prod.mk_sub_mk])
    (by norm_num [crossDev, CURVE_COLLINEARITY_EPSILON, Prod.mk_sub_mk])
    (by norm_num [sqNorm, Prod.mk_sub_mk])
    (by norm_num [sqNorm, Prod.mk_sub_mk])

open Classical in
lemma flatten4Stop_case1 (p1 p2 p3 p4 : Pt) (tol_dist tol_angle : ℚ)
    (h2 : crossDev p2 p4 (p4 - p1) ≤ CURVE_COLLINEARITY_EPSILON)
    (h3 : CURVE_COLLINEARITY_EPSILON < crossDev p3 p4 (p4 - p1)) :
    flatten4Stop p1 p2 p3 p4 tol_dist tol_angle =
      (if crossDev p3 p4 (p4 - p1) * crossDev p3 p4 (p4 - p1) ≤
          tol_dist * tol_dist * sqNorm (p4 - p1) then
        if tol_angle < CURVE_ANGLE_TOLERANCE_EPSILON then some [mid p2 p3]
        else if turnAngle (p4 - p3) (p3 - p2) < (tol_angle : ℝ) then
          some [p2, p3]
        else none
      else none) := by
  simp only [flatten4Stop]
  rw [if_neg (not_lt.mpr h2), if_pos h3,
    if_neg (show ¬((0:ℕ) + 1 = 0) by norm_num),
    if_pos (show (0:ℕ) + 1 = 1 by norm_num)]

open Classical in
lemma flatten4Stop_case2 (p1 p2 p3 p4 : Pt) (tol_dist tol_angle : ℚ)
    (h2 : CURVE_COLLINEARITY_EPSILON < crossDev p2 p4 (p4 - p1))
    (h3 : crossDev p3 p4 (p4 - p1) ≤ CURVE_COLLINEARITY_EPSILON) :
    flatten4Stop p1 p2 p3 p4 tol_dist tol_angle =
      (if crossDev p2 p4 (p4 - p1) * crossDev p2 p4 (p4 - p1) ≤
          tol_dist * tol_dist * sqNorm (p4 - p1) then
        if tol_angle < CURVE_ANGLE_TOLERANCE_EPSILON then some [mid p2 p3]
        else if turnAngle (p3 - p2) (p2 - p1) < (tol_angle : ℝ) then
          some [p2, p3]
        else none
      else none) := by
  simp only [flatten4Stop]
  rw [if_pos h2, if_neg (not_lt.mpr h3),
    if_neg (show ¬((2:ℕ) + 0 = 0) by norm_num),
    if_neg (show ¬((2:ℕ) + 0 = 1) by norm_num),
    if_pos (show (2:ℕ) + 0 = 2 by norm_num)]

/-- C5: in `flatten4`'s cases 1 and 2 (exactly one of `d2`, `d3` exceeds
the collinearity epsilon), when the relevant distance test passes: with
the angle test disabled the call returns the single midpoint `[p23]`; with
the angle test enabled and the normalized turning angle below `tol_angle`
it returns `[p2, p3]`; and with the angle test enabled but failing it
continues subdividing. -/
theorem flatten4_case12_spec (p1 p2 p3 p4 : Pt) (tol_dist tol_angle : ℚ)
    (level : ℕ) (hlev : level ≤ CURVE_RECURSION_LIMIT) :
    (crossDev p2 p4 (p4 - p1) ≤ CURVE_COLLINEARITY_EPSILON →
     CURVE_COLLINEARITY_EPSILON < crossDev p3 p4 (p4 - p1) →
     crossDev p3 p4 (p4 - p1) * crossDev p3 p4 (p4 - p1) ≤
       tol_dist * tol_dist * sqNorm (p4 - p1) →
     ((tol_angle < CURVE_ANGLE_TOLERANCE_EPSILON →
        flatten4 p1 p2 p3 p4 tol_dist tol_angle level = [mid p2 p3]) ∧
      (CURVE_ANGLE_TOLERANCE_EPSILON ≤ tol_angle →
        turnAngle (p4 - p3) (p3 - p2) < (tol_angle : ℝ) →
        flatten4 p1 p2 p3 p4 tol_dist tol_angle level = [p2, p3]) ∧
      (CURVE_ANGLE_TOLERANCE_EPSILON ≤ tol_angle →
        (tol_angle : ℝ) ≤ turnAngle (p4 - p3) (p3 - p2) →
        flatten4 p1 p2 p3 p4 tol_dist tol_angle level =
          flatten4 p1 (mid p1 p2) (mid (mid p1 p2) (mid p2 p3))
            (mid (mid (mid p1 p2) (mid p2 p3))
              (mid (mid p2 p3) (mid p3 p4)))
            tol_dist tol_angle (level + 1) ++
          flatten4 (mid (mid (mid p1 p2) (mid p2 p3))
              (mid (mid p2 p3) (mid p3 p4)))
            (mid (mid p2 p3) (mid p3 p4)) (mid p3 p4) p4
            tol_dist tol_angle (level + 1)))) ∧
    (CURVE_COLLINEARITY_EPSILON < crossDev p2 p4 (p4 - p1) →
     crossDev p3 p4 (p4 - p1) ≤ CURVE_COLLINEARITY_EPSILON →
     crossDev p2 p4 (p4 - p1) * crossDev p2 p4 (p4 - p1) ≤
       tol_dist * tol_dist * sqNorm (p4 - p1) →
     ((tol_angle < CURVE_ANGLE_TOLERANCE_EPSILON →
        flatten4 p1 p2 p3 p4 tol_dist tol_angle level = [mid p2 p3]) ∧
      (CURVE_ANGLE_TOLERANCE_EPSILON ≤ tol_angle →
        turnAngle (p3 - p2) (p2 - p1) < (tol_angle : ℝ) →
        flatten4 p1 p2 p3 p4 tol_dist tol_angle level = [p2, p3]) ∧
      (CURVE_ANGLE_TOLERANCE_EPSILON ≤ tol_angle →
        (tol_angle : ℝ) ≤ turnAngle (p3 - p2) (p2 - p1) →
        flatten4 p1 p2 p3 p4 tol_dist tol_angle level =
          flatten4 p1 (mid p1 p2) (mid (mid p1 p2) (mid p2 p3))
            (mid (mid (mid p1 p2) (mid p2 p3))
              (mid (mid p2 p3) (mid p3 p4)))
            tol_dist tol_angle (level + 1) ++
          flatten4 (mid (mid (mid p1 p2) (mid p2 p3))
              (mid (mid p2 p3) (mid p3 p4)))
            (mid (mid p2 p3) (mid p3 p4)) (mid p3 p4) p4
            tol_dist tol_angle (level + 1)))) := by
  constructor
  · intro h2 h3 hdist
    have hst := flatten4Stop_case1 p1 p2 p3 p4 tol_dist tol_angle h2 h3
    rw [if_pos hdist] at hst
    refine ⟨fun hA => ?_, fun hA hda => ?_, fun hA hda => ?_⟩
    · rw [if_pos hA] at hst
      exact flatten4_of_stop _ _ _ _ _ _ _ (by omega) _ hst
    · rw [if_neg (not_lt.mpr hA), if_pos hda] at hst
      exact flatten4_of_stop _ _ _ _ _ _ _ (by omega) _ hst
    · rw [if_neg (not_lt.mpr hA), if_neg (not_lt.mpr hda)] at hst
      exact flatten4_of_none _ _ _ _ _ _ _ (by omega) hst
  · intro h2 h3 hdist
    have hst := flatten4Stop_case2 p1 p2 p3 p4 tol_dist tol_angle h2 h3
    rw [if_pos hdist] at hst
    refine ⟨fun hA => ?_, fun hA hda => ?_, fun hA hda => ?_⟩
    · rw [if_pos hA] at hst
      exact flatten4_of_stop _ _ _ _ _ _ _ (by omega) _ hst
    · rw [if_neg (not_lt.mpr hA), if_pos hda] at hst
      exact flatten4_of_stop _ _ _ _ _ _ _ (by omega) _ hst
    · rw [if_neg (not_lt.mpr hA), if_neg (not_lt.mpr hda)] at hst
      exact flatten4_of_none _ _ _ _ _ _ _ (by omega) hst

/-- C5 witness: a case-1 cubic with the angle test disabled stops with the
single midpoint `p23`. -/
theorem flatten4_case12_spec_witness :
    flatten4 ((0:ℚ),0) ((1:ℚ),0) ((2:ℚ),1) ((3:ℚ),0) 1 0 0 =
      [((3/2:ℚ), 1/2)] := by
  have h := (flatten4_case12_spec ((0:ℚ),0) ((1:ℚ),0) ((2:ℚ),1) ((3:ℚ),0)
      1 0 0 (by norm_num [CURVE_RECURSION_LIMIT])).1
    (by norm_num [crossDev, CURVE_COLLINEARITY_EPSILON, Prod.mk_sub_mk])
    (by norm_num [crossDev, CURVE_COLLINEARITY_EPSILON, Prod.mk_sub_mk])
    (by norm_num [crossDev, sqNorm, Prod.mk_sub_mk])
  rw [h.1 (by norm_num [CURVE_ANGLE_TOLERANCE_EPSILON])]
  norm_num [mid]

open Classical in
lemma flatten4Stop_case0 (p1 p2 p3 p4 : Pt) (tol_dist tol_angle : ℚ)
    (h2 : crossDev p2 p4 (p4 - p1) ≤ CURVE_COLLINEARITY_EPSILON)
    (h3 : crossDev p3 p4 (p4 - p1) ≤ CURVE_COLLINEARITY_EPSILON)
    (hk : sqNorm (p4 - p1) ≠ 0) :
    flatten4Stop p1 p2 p3 p4 tol_dist tol_angle =
      (if (0 < 1 / sqNorm (p4 - p1) *
             ((p2.1 - p1.1) * (p4 - p1).1 + (p2.2 - p1.2) * (p4 - p1).2) ∧
           1 / sqNorm (p4 - p1) *
             ((p2.1 - p1.1) * (p4 - p1).1 + (p2.2 - p1.2) * (p4 - p1).2) < 1) ∧
          (0 < 1 / sqNorm (p4 - p1) *
             ((p3.1 - p1.1) * (p4 - p1).1 + (p3.2 - p1.2) * (p4 - p1).2) ∧
           1 / sqNorm (p4 - p1) *
             ((p3.1 - p1.1) * (p4 - p1).1 + (p3.2 - p1.2) * (p4 - p1).2) < 1)
       then some []
       else
        if (if 1 / sqNorm (p4 - p1) *
              ((p2.1 - p1.1) * (p4 - p1).1 + (p2.2 - p1.2) * (p4 - p1).2) ≤ 0
            then point_sq_distance p2 p1
            else if 1 ≤ 1 / sqNorm (p4 - p1) *
              ((p2.1 - p1.1) * (p4 - p1).1 + (p2.2 - p1.2) * (p4 - p1).2)
            then point_sq_distance p2 p4
            else point_sq_distance p2 (p1 + (1 / sqNorm (p4 - p1) *
              ((p2.1 - p1.1) * (p4 - p1).1 + (p2.2 - p1.2) * (p4 - p1).2)) •
              (p4 - p1))) >
           (if 1 / sqNorm (p4 - p1) *
              ((p3.1 - p1.1) * (p4 - p1).1 + (p3.2 - p1.2) * (p4 - p1).2) ≤ 0
            then point_sq_distance p3 p1
            else if 1 ≤ 1 / sqNorm (p4 - p1) *
              ((p3.1 - p1.1) * (p4 - p1).1 + (p3.2 - p1.2) * (p4 - p1).2)
            then point_sq_distance p3 p4
            else point_sq_distance p3 (p1 + (1 / sqNorm (p4 - p1) *
              ((p3.1 - p1.1) * (p4 - p1).1 + (p3.2 - p1.2) * (p4 - p1).2)) •
              (p4 - p1)))
        then
          (if (if 1 / sqNorm (p4 - p1) *
                ((p2.1 - p1.1) * (p4 - p1).1 + (p2.2 - p1.2) * (p4 - p1).2) ≤ 0
              then point_sq_distance p2 p1
              else if 1 ≤ 1 / sqNorm (p4 - p1) *
                ((p2.1 - p1.1) * (p4 - p1).1 + (p2.2 - p1.2) * (p4 - p1).2)
              then point_sq_distance p2 p4
              else point_sq_distance p2 (p1 + (1 / sqNorm (p4 - p1) *
                ((p2.1 - p1.1) * (p4 - p1).1 + (p2.2 - p1.2) * (p4 - p1).2)) •
                (p4 - p1))) < tol_dist * tol_dist
           then some [p2] else none)
        else if (if 1 / sqNorm (p4 - p1) *
              ((p3.1 - p1.1) * (p4 - p1).1 + (p3.2 - p1.2) * (p4 - p1).2) ≤ 0
            then point_sq_distance p3 p1
            else if 1 ≤ 1 / sqNorm (p4 - p1) *
              ((p3.1 - p1.1) * (p4 - p1).1 + (p3.2 - p1.2) * (p4 - p1).2)
            then point_sq_distance p3 p4
            else point_sq_distance p3 (p1 + (1 / sqNorm (p4 - p1) *
              ((p3.1 - p1.1) * (p4 - p1).1 + (p3.2 - p1.2) * (p4 - p1).2)) •
              (p4 - p1))) < tol_dist * tol_dist
        then some [p3] else none) := by
  simp only [flatten4Stop]
  rw [if_neg (not_lt.mpr h2), if_neg (not_lt.mpr h3),
    if_pos (show (0:ℕ) + 0 = 0 by norm_num), if_neg hk]

/-- C4: in `flatten4`'s case 0 (both deviations at most the collinearity
epsilon, chord `|d|` nonzero): if the projection parameters of `p2` and
`p3` onto the chord both land strictly inside `(0,1)` the call returns the
empty list; otherwise squared distances from each control point to its
parameter-clamped chord point are compared, the farther control point
governs, and if the governing squared deviation is below `tol_dist²` the
call returns that single governing point (`[p2]` if `p2` is farther, else
`[p3]`). -/
theorem flatten4_case0_spec (p1 p2 p3 p4 : Pt) (tol_dist tol_angle : ℚ)
    (level : ℕ) (u2 u3 e2 e3 : ℚ)
    (hlev : level ≤ CURVE_RECURSION_LIMIT)
    (h2 : crossDev p2 p4 (p4 - p1) ≤ CURVE_COLLINEARITY_EPSILON)
    (h3 : crossDev p3 p4 (p4 - p1) ≤ CURVE_COLLINEARITY_EPSILON)
    (hk : sqNorm (p4 - p1) ≠ 0)
    (hu2 : u2 = 1 / sqNorm (p4 - p1) *
      ((p2.1 - p1.1) * (p4 - p1).1 + (p2.2 - p1.2) * (p4 - p1).2))
    (hu3 : u3 = 1 / sqNorm (p4 - p1) *
      ((p3.1 - p1.1) * (p4 - p1).1 + (p3.2 - p1.2) * (p4 - p1).2))
    (he2 : e2 = if u2 ≤ 0 then point_sq_distance p2 p1
      else if 1 ≤ u2 then point_sq_distance p2 p4
      else point_sq_distance p2 (p1 + u2 • (p4 - p1)))
    (he3 : e3 = if u3 ≤ 0 then point_sq_distance p3 p1
      else if 1 ≤ u3 then point_sq_distance p3 p4
      else point_sq_distance p3 (p1 + u3 • (p4 - p1))) :
    ((0 < u2 ∧ u2 < 1) ∧ (0 < u3 ∧ u3 < 1) →
      flatten4 p1 p2 p3 p4 tol_dist tol_angle level = []) ∧
    (¬((0 < u2 ∧ u2 < 1) ∧ (0 < u3 ∧ u3 < 1)) →
      (e3 < e2 → e2 < tol_dist * tol_dist →
        flatten4 p1 p2 p3 p4 tol_dist tol_angle level = [p2]) ∧
      (e2 ≤ e3 → e3 < tol_dist * tol_dist →
        flatten4 p1 p2 p3 p4 tol_dist tol_angle level = [p3])) := by
  subst hu2 hu3
  subst he2 he3
  have hst := flatten4Stop_case0 p1 p2 p3 p4 tol_dist tol_angle h2 h3 hk
  constructor
  · intro hin
    rw [if_pos hin] at hst
    exact flatten4_of_stop _ _ _ _ _ _ _ (by omega) _ hst
  · intro hnin
    rw [if_neg hnin] at hst
    constructor
    · intro hgt htol
      rw [if_pos hgt, if_pos htol] at hst
      exact flatten4_of_stop _ _ _ _ _ _ _ (by omega) _ hst
    · intro hle htol
      rw [if_neg (not_lt.mpr hle), if_pos htol] at hst
      exact flatten4_of_stop _ _ _ _ _ _ _ (by omega) _ hst

/-- C4 witness: a case-0 cubic with one projection outside the chord,
where the farther control point `p2` is returned. -/
theorem flatten4_case0_spec_witness :
    flatten4 ((0:ℚ),0) ((-1:ℚ),0) ((1:ℚ),0) ((2:ℚ),0) 2 0 0 =
      [((-1:ℚ),0)] := by
  have h := flatten4_case0_spec ((0:ℚ),0) ((-1:ℚ),0) ((1:ℚ),0) ((2:ℚ),0)
    2 0 0 (-1/2) (1/2) 1 0
    (by norm_num [CURVE_RECURSION_LIMIT])
    (by norm_num [crossDev, CURVE_COLLINEARITY_EPSILON, Prod.mk_sub_mk])
    (by norm_num [crossDev, CURVE_COLLINEARITY_EPSILON, Prod.mk_sub_mk])
    (by norm_num [sqNorm, Prod.mk_sub_mk])
    (by norm_num [sqNorm, Prod.mk_sub_mk])
    (by norm_num [sqNorm, Prod.mk_sub_mk])
    (by norm_num [point_sq_distance])
    (by norm_num [point_sq_distance, Prod.mk_sub_mk, Prod.smul_mk,
      Prod.mk_add_mk, smul_eq_mul])
  exact (h.2 (by norm_num)).1 (by norm_num) (by norm_num)

/-- C9 counterexample: a supported segment kind can raise — an `Arc` whose
evaluator is constant (zero radius) makes `segment2polyline` propagate the
`ZeroDivisionError` from `flatten_arc` instead of returning a polyline. -/
theorem segment2polyline_arc_raises :
    segment2polyline
      (Segment.arc (fun _ => ((1:ℚ),2)) ((1:ℚ),2) ((1:ℚ),2)) 1 0 1 =
      SegResult.zeroDivisionError := by
  have h : flatten_arc (fun _ => ((1:ℚ),2)) 1 0 1 1 = .zeroDiv := by
    norm_num [flatten_arc, sqNorm, Prod.mk_sub_mk]
  simp [segment2polyline, h]

/-- C9 (amended): `segment2polyline` on any segment that is none of the
four supported kinds raises the descriptive unsupported-segment
`ValueError`; a `Line`, `QuadraticBezier` or `CubicBezier` always returns
`[start] + interior + [end]` without raising, and an `Arc` does so
whenever its (uncapped) flattening completes normally — a degenerate arc
instead propagates `ZeroDivisionError` (see the counterexample). -/
theorem segment2polyline_dispatch_spec (s e c c1 c2 : Pt) (point : ℚ → Pt)
    (tol_dist tol_angle : ℚ) (fuel : ℕ) (interior : List Pt) :
    segment2polyline Segment.other tol_dist tol_angle fuel =
      SegResult.valueError ∧
    segment2polyline (Segment.line s e) tol_dist tol_angle fuel =
      SegResult.ok [s, e] ∧
    segment2polyline (Segment.quadraticBezier s c e) tol_dist tol_angle
      fuel = SegResult.ok ([s] ++ flatten3 s c e tol_dist tol_angle 0 ++ [e]) ∧
    segment2polyline (Segment.cubicBezier s c1 c2 e) tol_dist tol_angle
      fuel =
      SegResult.ok ([s] ++ flatten4 s c1 c2 e tol_dist tol_angle 0 ++ [e]) ∧
    (flatten_arc point tol_dist 0 1 fuel = .ok interior →
      segment2polyline (Segment.arc point s e) tol_dist tol_angle fuel =
        SegResult.ok ([s] ++ interior ++ [e])) := by
  refine ⟨rfl, rfl, rfl, rfl, fun h => ?_⟩
  simp [segment2polyline, h]

/-- C9 witness: the unsupported kind raises `ValueError`, and a concrete
non-degenerate arc assembles `[start] + interior + [end]`. -/
theorem segment2polyline_dispatch_spec_witness :
    segment2polyline Segment.other 1 0 1 = SegResult.valueError ∧
    segment2polyline (Segment.arc (fun t => (t, 0)) ((0:ℚ),0) ((1:ℚ),0))
      1 0 1 = SegResult.ok [((0:ℚ),0), ((1/2:ℚ),0), ((1:ℚ),0)] := by
  have h := segment2polyline_dispatch_spec ((0:ℚ),0) ((1:ℚ),0) ((0:ℚ),0)
    ((0:ℚ),0) ((0:ℚ),0) (fun t => (t, 0)) 1 0 1 [((1/2:ℚ),0)]
  refine ⟨h.1, ?_⟩
  have harc := h.2.2.2.2 (by norm_num [flatten_arc, sqNorm, Prod.mk_sub_mk])
  simpa using harc
